import Mathlib

/-!
Verification development for the requirement-processing pipeline of the
Code-Generation-Agent server.

The TypeScript sources are shallowly embedded: JavaScript number arithmetic on
scores is modelled exactly over the rationals, JavaScript objects used as
string-keyed maps are modelled as association lists in insertion order, and
every external effect (LLM HTTP call, git operation, database write, Redis
enqueue) is an explicit oracle argument so that each code path is a total
function of its inputs and of the oracle outcomes.
-/

namespace CodeGenAgent

/-! ## Basic string helpers (Node path module and JS string semantics) -/

/-- Decides whether the first list is a leading segment of the second. -/
def charsHavePre : List Char → List Char → Bool
  | [], _ => true
  | _ :: _, [] => false
  | a :: as, b :: bs => a == b && charsHavePre as bs

/-- Decides whether the second list occurs contiguously inside the first,
mirroring the JS String.prototype.includes semantics (empty needle matches). -/
def charsContain : List Char → List Char → Bool
  | [], needle => needle.isEmpty
  | h :: t, needle => charsHavePre needle (h :: t) || charsContain t needle

/-- JS hay.includes(needle). -/
def strContains (hay needle : String) : Bool :=
  charsContain hay.toList needle.toList

/-- JS s.startsWith(pre). -/
def strHasPre (s pre : String) : Bool :=
  charsHavePre pre.toList s.toList

/-- JS s.endsWith(suf). -/
def strHasSuf (s suf : String) : Bool :=
  charsHavePre suf.toList.reverse s.toList.reverse

/-- Splits a character list at every occurrence of the separator, keeping
empty segments, like splitting a string on a one-character separator. -/
def splitChars (sep : Char) : List Char → List (List Char)
  | [] => [[]]
  | c :: cs =>
    let r := splitChars sep cs
    if c == sep then [] :: r
    else
      match r with
      | [] => [[c]]
      | h :: t => (c :: h) :: t

/-- Joins character segments with the separator between them. -/
def joinChars (sep : Char) : List (List Char) → List Char
  | [] => []
  | [x] => x
  | x :: y :: t => x ++ sep :: joinChars sep (y :: t)

/-- Node posix path.basename: trailing separators are ignored, then the part
after the last remaining separator is returned; a path consisting only of
separators has the separator itself as basename. -/
def basenameChars (cs : List Char) : List Char :=
  let stripped := (cs.reverse.dropWhile (fun c => c == '/')).reverse
  if stripped.isEmpty then
    if cs.isEmpty then [] else ['/']
  else (splitChars '/' stripped).getLastD stripped

/-- Node path.basename on strings. -/
def basenameOf (p : String) : String :=
  String.mk (basenameChars p.toList)

/-- Index of the last occurrence of a character in a list, if any. -/
def lastIdxOf (c : Char) : List Char → Option Nat
  | [] => none
  | h :: t =>
    match lastIdxOf c t with
    | some i => some (i + 1)
    | none => if h == c then some 0 else none

/-- Node path.extname: the extension of the last path portion, from its last
dot to the end; empty when the basename has no dot, or its only dot is the
leading character. -/
def extnameOf (p : String) : String :=
  let cs := basenameChars p.toList
  match lastIdxOf '.' cs with
  | none => ""
  | some 0 => ""
  | some i => String.mk (cs.drop i)

/-- ASCII lower-casing of one character, as JS toLowerCase acts on the
characters occurring in file extensions. -/
def charLower (c : Char) : Char :=
  if 65 ≤ c.toNat && c.toNat ≤ 90 then Char.ofNat (c.toNat + 32) else c

/-- ASCII lower-casing of a string. -/
def strLower (s : String) : String :=
  String.mk (s.toList.map charLower)

/-- Characters counted as word characters by the JS regex class backslash-w. -/
def isWordChar (c : Char) : Bool :=
  (97 ≤ c.toNat && c.toNat ≤ 122) || (65 ≤ c.toNat && c.toNat ≤ 90) ||
    (48 ≤ c.toNat && c.toNat ≤ 57) || c == '_'

/-- JS s.replace with the anchored pattern of a dot followed by one or more
word characters at the end of the string, replaced by the empty string: strips
a final well-formed extension, if present. -/
def stripFinalExt (s : String) : String :=
  let cs := s.toList
  match lastIdxOf '.' cs with
  | none => s
  | some i =>
    let tail := cs.drop (i + 1)
    if tail.length > 0 && tail.all isWordChar then String.mk (cs.take i) else s

/-! ## Quality checker (QualityCheckServiceImpl) -/

/-- The extension table of QualityCheckServiceImpl.isCodeFile, keyed on the
language value; languages absent from the table (including the csharp, ruby
and php enum members, which differ from the table keys) yield no extensions. -/
def languageExtensions : String → List String
  | "typescript" => [".ts", ".tsx"]
  | "javascript" => [".js", ".jsx"]
  | "python" => [".py"]
  | "java" => [".java"]
  | "go" => [".go"]
  | "rust" => [".rs"]
  | "c++" => [".cpp", ".hpp", ".h"]
  | "c#" => [".cs"]
  | _ => []

/-- QualityCheckServiceImpl.isCodeFile: the lower-cased extension of the file
path is in the extension set of the language. -/
def isCodeFile (filePath language : String) : Bool :=
  (languageExtensions language).contains (strLower (extnameOf filePath))

/-- A generated artifact: file path to textual content, in insertion order. -/
abbrev Artifact := List (String × String)

/-- QualityCheckServiceImpl.validateSyntax. The per-file LLM verdict (the
result of validateFileContent, true when the reply starts with the word valid
and false on any error) is abstracted as the validator oracle. Note that the
denominator of the final ratio is the number of all file entries, not only
the code files. -/
def validateSyntax (validator : String → Bool) (generatedCode : Artifact)
    (language : String) : ℚ :=
  let validCount :=
    (generatedCode.filter (fun e => isCodeFile e.1 language && validator e.2)).length
  if generatedCode.length > 0 then
    (validCount : ℚ) / (generatedCode.length : ℚ) * 100
  else 0

/-- The syntax-validity sub-score as the specification words it: valid code
files over all code files, times 100, and 0 when there are no code files;
non-code files contribute to neither count. -/
def syntaxScoreStated (validator : String → Bool) (generatedCode : Artifact)
    (language : String) : ℚ :=
  let codeFiles := generatedCode.filter (fun e => isCodeFile e.1 language)
  if codeFiles.length = 0 then 0
  else ((codeFiles.filter (fun e => validator e.2)).length : ℚ) /
    (codeFiles.length : ℚ) * 100

/-- The file-structure part of calculateRequirementCoverage: the fraction of
required entries whose basename equals, or whose extension-stripped basename
occurs inside, some generated basename; 1 when no file structure was given. -/
def fileStructureCoverage (generatedKeys fileStructure : List String) : ℚ :=
  if fileStructure.length > 0 then
    let generatedFiles := generatedKeys.map basenameOf
    let matchCount :=
      (fileStructure.filter (fun required =>
        let b := basenameOf required
        generatedFiles.any (fun f => f == b || strContains f (stripFinalExt b)))).length
    (matchCount : ℚ) / (fileStructure.length : ℚ)
  else 1

/-- Outcome of one LLM call as the caller observes it after JSON parsing:
either the parsed payload or a caught error message. -/
inductive LlmOutcome (α : Type) where
  | ok (a : α)
  | caught (msg : String)

/-- QualityCheckServiceImpl.calculateRequirementCoverage: on a successful LLM
call the file-structure coverage (a fraction in the unit interval) and the
functional coverage score (on the 0 to 100 scale) are combined as their
30 and 70 weighted sum divided by 100; when the LLM call fails the method
returns the file-structure coverage scaled by 100 instead. -/
def calculateRequirementCoverage (generatedKeys fileStructure : List String)
    (coverageCall : LlmOutcome ℚ) : ℚ :=
  let fsc := fileStructureCoverage generatedKeys fileStructure
  match coverageCall with
  | .ok coverageScore => (fsc * 30 + coverageScore * 70) / 100
  | .caught _ => fsc * 100

/-- The requirement-coverage sub-score as the specification words it:
0.3 times fileStructureCoverage times 100, plus 0.7 times the functional
coverage score. -/
def requirementCoverageStated (generatedKeys fileStructure : List String)
    (functionalCoverage : ℚ) : ℚ :=
  0.3 * fileStructureCoverage generatedKeys fileStructure * 100 +
    0.7 * functionalCoverage

/-- The parsed payload of the code-quality evaluation call. -/
structure EvalPayload where
  totalScore : ℚ
  feedback : String

/-- QualityCheckServiceImpl.evaluateCodeQuality after the LLM call and JSON
parse: the totalScore and feedback of the parsed reply, or score 0 with a
failure feedback when the call or the parse failed. -/
def evaluateCodeQuality (evalCall : LlmOutcome EvalPayload) : ℚ × String :=
  match evalCall with
  | .ok p => (p.totalScore, p.feedback)
  | .caught msg => (0, "evaluation failed: " ++ msg)

/-- Result record returned by checkCodeQuality. -/
structure QualityCheckResult where
  passed : Bool
  codeQualityScore : ℚ
  requirementCoverageScore : ℚ
  syntaxValidityScore : ℚ
  feedback : String
deriving DecidableEq, Repr

/-- The aggregate score exactly as checkCodeQuality computes it. -/
def overallScore (cq rc sv : ℚ) : ℚ :=
  cq * 0.5 + rc * 0.3 + sv * 0.2

/-- QualityCheckServiceImpl.checkCodeQuality: compute the three sub-scores,
aggregate them with the 0.5, 0.3, 0.2 weights, and pass exactly when the
aggregate reaches 85. -/
def checkCodeQuality (validator : String → Bool)
    (evalCall : LlmOutcome EvalPayload) (coverageCall : LlmOutcome ℚ)
    (generatedCode : Artifact) (fileStructure : List String)
    (language : String) : QualityCheckResult :=
  let syntaxValidityScore := validateSyntax validator generatedCode language
  let evaluation := evaluateCodeQuality evalCall
  let requirementCoverageScore :=
    calculateRequirementCoverage (generatedCode.map (·.1)) fileStructure coverageCall
  let overall := overallScore evaluation.1 requirementCoverageScore syntaxValidityScore
  { passed := decide (overall ≥ 85)
    codeQualityScore := evaluation.1
    requirementCoverageScore := requirementCoverageScore
    syntaxValidityScore := syntaxValidityScore
    feedback := evaluation.2 }

/-! ## Task store records and status updates -/

/-- The RequirementStatus enum of the task table. -/
inductive RequirementStatus where
  | pending
  | in_progress
  | completed
  | failed
deriving DecidableEq, Repr

/-- One updateTaskStatus write, with the detail fields the pipeline stores. -/
structure TaskUpdate where
  status : RequirementStatus
  progress : ℚ
  message : Option String := none
  errorMsg : Option String := none
  stage : Option String := none
  commitHash : Option String := none
deriving DecidableEq, Repr

/-! ## Code-generation event listener (CodeGenerateEventListener) -/

/-- What the listener does after the quality check of a generated artifact. -/
inductive GenListenerAction where
  | emitCommitEvent
  | markFailed (errMsg : String)
deriving DecidableEq, Repr

/-- CodeGenerateEventListener.processEvent: when the codeQualityScore
sub-score of the quality result exceeds 80 the listener proceeds to
markTaskCompleted, which emits the code-commit event; otherwise it raises the
synthetic error with the low-quality message, routed to markTaskFailed. -/
def generateListenerDecision (q : QualityCheckResult) : GenListenerAction :=
  if q.codeQualityScore > 80 then GenListenerAction.emitCommitEvent
  else GenListenerAction.markFailed "Low code quality score"

/-- CodeGenerationProcessorImpl.markTaskFailed: status failed, progress 0,
details carrying the error message. -/
def generateMarkTaskFailed (errMsg : String) : TaskUpdate :=
  { status := RequirementStatus.failed, progress := 0, errorMsg := some errMsg }

/-! ## LLM provider registry (LLmServiceImpl) -/

/-- One provider entry of the dynamic LLM configuration. The optional enabled
flag of the TypeScript record is collapsed to a Bool that is false exactly
when the source checks enabled triple-equals false succeed. -/
structure SingleLLMConfig where
  apiUrl : String
  apiKey : String
  model : String
  enabled : Bool
  apiType : String
deriving DecidableEq, Repr

/-- The dynamic LLM configuration: named provider entries in insertion order,
a default provider name, and the fallback order list. -/
structure LlmConfig where
  providers : List (String × SingleLLMConfig)
  defaultProvider : String
  fallbackOrder : List String
deriving DecidableEq, Repr

/-- LLmServiceImpl.getProvider: the named entry, unless absent or disabled. -/
def getProvider (cfg : LlmConfig) (providerName : String) : Option SingleLLMConfig :=
  match cfg.providers.lookup providerName with
  | some p => if p.enabled then some p else none
  | none => none

/-- LLmServiceImpl.getProvidersInFallbackOrder: enabled providers in fallback
order first, then the remaining enabled providers not listed there, in
configuration order. -/
def getProvidersInFallbackOrder (cfg : LlmConfig) : List SingleLLMConfig :=
  cfg.fallbackOrder.filterMap (getProvider cfg) ++
    ((cfg.providers.filter
      (fun nc => nc.2.enabled && !(cfg.fallbackOrder.contains nc.1))).map (·.2))

/-- True exactly on a successful Except result. -/
def exceptOk {ε α : Type} : Except ε α → Bool
  | Except.ok _ => true
  | Except.error _ => false

/-- The loop body of LLmServiceImpl.callLLMApiWithFallback: walk the provider
list, skip excluded api types, return on the first success, remember the last
error, and fail with the aggregate message once the list is exhausted. The
outcome of callProviderApi on each candidate is the api oracle. -/
def fallbackLoop (api : SingleLLMConfig → Except String String)
    (excludeProviders : List String) :
    List SingleLLMConfig → Option String → Except String (String × String)
  | [], lastError =>
    Except.error ("All LLM providers failed. Last error: " ++ lastError.getD "undefined")
  | c :: rest, lastError =>
    if excludeProviders.contains c.apiType then
      fallbackLoop api excludeProviders rest lastError
    else
      match api c with
      | Except.ok content => Except.ok (content, c.apiType)
      | Except.error e => fallbackLoop api excludeProviders rest (some e)

/-- LLmServiceImpl.callLLMApiWithFallback: run the loop over the providers in
fallback order, starting with no last error. -/
def callLLMApiWithFallback (api : SingleLLMConfig → Except String String)
    (cfg : LlmConfig) (excludeProviders : List String) :
    Except String (String × String) :=
  fallbackLoop api excludeProviders (getProvidersInFallbackOrder cfg) none

/-- The candidate list as the specification words it: providers in the order
of fallbackOrder with disabled ones skipped, then every remaining enabled
provider not listed there, with every provider of an excluded api type
removed. -/
def statedFallbackCandidates (cfg : LlmConfig) (excludeProviders : List String) :
    List SingleLLMConfig :=
  ((cfg.fallbackOrder.filterMap (fun n =>
      match cfg.providers.lookup n with
      | some p => if p.enabled then some p else none
      | none => none)) ++
    ((cfg.providers.filter
      (fun nc => nc.2.enabled && !(cfg.fallbackOrder.contains nc.1))).map (·.2))).filter
    (fun c => !(excludeProviders.contains c.apiType))

/-- The fallback behaviour as the specification words it: try each candidate
in turn, return the first successful response with its provider, and fail
only after every candidate has failed, reporting the last error. -/
def statedFallbackRun (api : SingleLLMConfig → Except String String) :
    List SingleLLMConfig → Option String → Except String (String × String)
  | [], lastError =>
    Except.error ("All LLM providers failed. Last error: " ++ lastError.getD "undefined")
  | c :: rest, _ =>
    match api c with
    | Except.ok content => Except.ok (content, c.apiType)
    | Except.error e => statedFallbackRun api rest (some e)

/-! ## Committer (GitIntegrationServiceImpl.commitToGit) -/

/-- The result record of a successful commit. -/
structure ResponseCommitGit where
  commitHash : String
  filesChanged : List String
deriving DecidableEq, Repr

/-- ASCII letters and digits, the characters kept by extractRepoName. -/
def isAsciiAlnum (c : Char) : Bool :=
  (97 ≤ c.toNat && c.toNat ≤ 122) || (65 ≤ c.toNat && c.toNat ≤ 90) ||
    (48 ≤ c.toNat && c.toNat ≤ 57)

/-- GitIntegrationServiceImpl.extractRepoName: strip a leading protocol or
git-at marker, keep the part after the first colon for colon-only SSH forms
and otherwise everything after the first slash, strip a final dot-git, and
replace every character that is not an ASCII letter or digit with a dash. -/
def extractRepoName (repositoryUrl : String) : String :=
  let u := repositoryUrl.toList
  let p0 :=
    if charsHavePre "https://".toList u then u.drop 8
    else if charsHavePre "http://".toList u then u.drop 7
    else u
  let p1 := if charsHavePre "git@".toList p0 then p0.drop 4 else p0
  let p2 :=
    if charsContain p1 [':'] && !(charsContain p1 ['/']) then
      (splitChars ':' p1).getD 1 []
    else
      joinChars '/' ((splitChars '/' p1).drop 1)
  let p3 :=
    if charsHavePre ".git".toList.reverse p2.reverse then
      p2.take (p2.length - 4)
    else p2
  String.mk (p3.map (fun c => if isAsciiAlnum c then c else '-'))

/-- Outcomes of the external git and filesystem operations performed by
commitToGit, one field per awaited call site. -/
structure GitOracle where
  addConfigName : Except String Unit
  addConfigEmail : Except String Unit
  cloneRepo : Except String Unit
  branchAll : Except String (List String)
  checkoutExisting : Except String Unit
  checkoutNewLocal : Except String Unit
  writeFile : String → Except String Unit
  addFiles : Except String Unit
  commitStep : Except String String
  pushStep : Except String Unit
  removeTempDir : Except String Unit

/-- The task fields commitToGit reads. -/
structure CommitTask where
  repository_url : String
  branch : String
  requirement_text : String
deriving DecidableEq, Repr

/-- The request record of commitToGit, with the analysis title it reads. -/
structure CommitGitRequest where
  task : CommitTask
  generatedCode : Artifact
  outputPath : String
  analysisTitle : Option String
deriving DecidableEq, Repr

/-- The file-writing loop of commitToGit: write each artifact entry under the
output path and accumulate the changed paths; a filesystem error aborts. -/
def writeAllFiles (write : String → Except String Unit) (outputPath : String) :
    Artifact → Except String (List String)
  | [] => Except.ok []
  | (filePath, _) :: rest =>
    match write (outputPath ++ "/" ++ filePath) with
    | Except.ok _ =>
      match writeAllFiles write outputPath rest with
      | Except.ok fs => Except.ok ((outputPath ++ "/" ++ filePath) :: fs)
      | Except.error e => Except.error e
    | Except.error e => Except.error e

/-- The commit message built by commitToGit. -/
def commitMessageOf (analysisTitle : Option String) (requirementText : String) : String :=
  let title :=
    match analysisTitle with
    | some t => if t == "" then "new requirement" else t
    | none => "new requirement"
  "feat: implement " ++ title ++ "\n\n" ++
    String.mk (requirementText.toList.take 200) ++
    (if requirementText.toList.length > 200 then "..." else "")

/-- The try block of commitToGit: configure identity, clone, check out the
requested branch or create it locally when absent, write the artifact, stage,
commit, push, and return the hash with the changed paths. -/
def commitBody (g : GitOracle) (req : CommitGitRequest) :
    Except String ResponseCommitGit :=
  match g.addConfigName with
  | Except.error e => Except.error e
  | Except.ok _ =>
  match g.addConfigEmail with
  | Except.error e => Except.error e
  | Except.ok _ =>
  match g.cloneRepo with
  | Except.error e => Except.error e
  | Except.ok _ =>
  match g.branchAll with
  | Except.error e => Except.error e
  | Except.ok branches =>
  match
    (if branches.contains req.task.branch ||
        branches.contains ("remotes/origin/" ++ req.task.branch) then
      g.checkoutExisting
    else g.checkoutNewLocal) with
  | Except.error e => Except.error e
  | Except.ok _ =>
  match writeAllFiles g.writeFile req.outputPath req.generatedCode with
  | Except.error e => Except.error e
  | Except.ok filesChanged =>
  match g.addFiles with
  | Except.error e => Except.error e
  | Except.ok _ =>
  match g.commitStep with
  | Except.error e => Except.error e
  | Except.ok commitHash =>
  match g.pushStep with
  | Except.error e => Except.error e
  | Except.ok _ => Except.ok { commitHash := commitHash, filesChanged := filesChanged }

/-- What a call to commitToGit leaves behind: the returned or raised result,
and the fate of the temporary working directory. -/
structure CommitOutcome where
  result : Except String ResponseCommitGit
  tempDirCreated : Bool
  removalAttempted : Bool
  removalSucceeded : Bool

/-- GitIntegrationServiceImpl.commitToGit: reject an empty repository name
before creating the temporary directory; afterwards run the try block, wrap
any error, and in the finally block always attempt to remove the temporary
directory, catching and only logging a removal failure. -/
def commitToGit (g : GitOracle) (req : CommitGitRequest) : CommitOutcome :=
  if extractRepoName req.task.repository_url == "" then
    { result := Except.error "Invalid repository URL provided"
      tempDirCreated := false
      removalAttempted := false
      removalSucceeded := false }
  else
    let wrapped :=
      match commitBody g req with
      | Except.ok r => Except.ok r
      | Except.error e => Except.error ("Failed to commit to Git repository: " ++ e)
    { result := wrapped
      tempDirCreated := true
      removalAttempted := true
      removalSucceeded := exceptOk g.removeTempDir }

/-! ## Commit event listener and processor (CodeCommitEventListener) -/

/-- CodeCommitProcessorImpl.markTaskCompleted: status completed, progress 1.0,
details carrying the commit hash. -/
def commitMarkTaskCompleted (r : ResponseCommitGit) : TaskUpdate :=
  { status := RequirementStatus.completed
    progress := 1
    message := some "Code generated, quality verified, and committed to repository"
    commitHash := some r.commitHash }

/-- CodeCommitProcessorImpl.markTaskFailed: status failed, progress 0, the
wrapped error message, and the code-commit stage marker. -/
def commitMarkTaskFailed (errMsg : String) : TaskUpdate :=
  { status := RequirementStatus.failed
    progress := 0
    errorMsg := some ("Failed to commit code: " ++ errMsg)
    stage := some "code_commit" }

/-- CodeCommitEventListener.processEvent after the processor returned a commit
result: mark the task completed only under the truthy commit-hash guard,
otherwise raise the synthetic error routed to markTaskFailed. -/
def commitListenerUpdate (commitResult : ResponseCommitGit) : TaskUpdate :=
  if commitResult.commitHash == "" then
    commitMarkTaskFailed "Failed to get commit hash"
  else commitMarkTaskCompleted commitResult

/-- The final status update of CodeGenerationServiceImpl.processRequirement
and of its specific-model and model-comparison variants: status completed,
progress 1.0, and details.commitHash copied from the committer result without
any truthiness check. -/
def processRequirementFinalUpdate (commitResult : ResponseCommitGit) : TaskUpdate :=
  { status := RequirementStatus.completed
    progress := 1
    message := some "Code generated, quality verified, and committed to repository"
    commitHash := some commitResult.commitHash }

/-! ## Task creation and queue (RequirementTaskServiceImpl,
RequirementQueueServiceImpl) -/

/-- One row of the requirement task table, with the fields creation sets. -/
structure TaskRow where
  id : String
  status : RequirementStatus
  progress : ℚ
deriving DecidableEq, Repr

/-- One BullMQ job of the requirement-processing queue. -/
structure QueueJob where
  id : String
  taskId : String
  priority : Nat
deriving DecidableEq, Repr

/-- RequirementQueueServiceImpl.getPriorityValue: critical 1, high 2,
medium 3, low 4, anything else 3. -/
def getPriorityValue : String → Nat
  | "critical" => 1
  | "high" => 2
  | "medium" => 3
  | "low" => 4
  | _ => 3

/-- RequirementQueueServiceImpl.addTask: append a job whose job id equals the
task id at the mapped priority; the Redis round trip may fail, in which case
nothing is inserted. -/
def queueAddTask (jobs : List QueueJob) (taskId priorityName : String)
    (redisOk : Bool) : Except String (List QueueJob × String) :=
  if redisOk then
    Except.ok
      (jobs ++ [{ id := taskId, taskId := taskId,
                  priority := getPriorityValue priorityName }], taskId)
  else Except.error "enqueue failed"

/-- Which of the three effectful steps of task creation succeed. -/
structure CreateTaskEnv where
  insertOk : Bool
  enqueueOk : Bool
  commitOk : Bool
deriving DecidableEq, Repr

/-- The durable state task creation touches: the task table rows and the
Redis-resident queue jobs. -/
structure PipelineState where
  tasks : List TaskRow
  jobs : List QueueJob
deriving DecidableEq, Repr

/-- RequirementTaskServiceImpl.createRequirementTask: inside one Prisma
transaction, insert the pending task row through the transaction client and
enqueue the job through the queue service. The enqueue is a Redis write that
takes effect immediately and is outside the database rollback: a callback
failure (insert or enqueue) rolls the row back, and a commit failure rolls
the row back but cannot undo a Redis write that already happened. -/
def createRequirementTask (st : PipelineState) (newId priorityName : String)
    (env : CreateTaskEnv) : Except String String × PipelineState :=
  if !env.insertOk then
    (Except.error "task row insert failed", st)
  else
    let txTasks :=
      st.tasks ++ [{ id := newId, status := RequirementStatus.pending, progress := 0 }]
    match queueAddTask st.jobs newId priorityName env.enqueueOk with
    | Except.error e => (Except.error e, st)
    | Except.ok (jobs2, _) =>
      if env.commitOk then
        (Except.ok newId, { tasks := txTasks, jobs := jobs2 })
      else
        (Except.error "transaction commit failed", { tasks := st.tasks, jobs := jobs2 })

/-! ## Multi-model comparison (CodeGenerationServiceImpl
.processRequirementWithModelComparison) -/

/-- JS Object.keys length of a value that is in fact a string primitive: the
keys are the character indices, so the count equals the length. -/
def jsStringKeyCount (s : String) : Nat := s.length

/-- The accumulator of the best-output selection loop. -/
structure BestSelection where
  bestModel : String
  maxFileCount : Nat
  bestModelCode : String
deriving DecidableEq, Repr

/-- The selection loop of processRequirementWithModelComparison, operating on
the value it actually receives: the call to generateCodeWithOllamaModel
returns one artifact (a path-to-content record), so Object.entries yields
file entries, and Object.keys of each content value, a string, counts its
characters. -/
def comparisonSelectLoop :
    List (String × String) → BestSelection → BestSelection
  | [], acc => acc
  | (model, codeFiles) :: rest, acc =>
    let fileCount := jsStringKeyCount codeFiles
    if fileCount > acc.maxFileCount then
      comparisonSelectLoop rest
        { bestModel := model, maxFileCount := fileCount, bestModelCode := codeFiles }
    else comparisonSelectLoop rest acc

/-- The best-output selection of processRequirementWithModelComparison over
the multiModelResults value, starting from the empty accumulator. -/
def comparisonSelect (multiModelResults : List (String × String)) : BestSelection :=
  comparisonSelectLoop multiModelResults
    { bestModel := "", maxFileCount := 0, bestModelCode := "" }

/-- The provider list hard-coded in generateCodeWithMultipleOllamaModels. -/
def multipleOllamaProviders : List String :=
  ["ollama-kevin", "ollama-deepseek-coder", "ollama-deepseek-r1",
    "ollama-llama3.1", "ollama-qwen2.5"]

/-- LlmIntegrationServiceImpl.generateCodeWithMultipleOllamaModels: one
artifact per configured provider, keyed by the provider. This is the declared
multi-model generator; processRequirementWithModelComparison never invokes
it and calls the single-artifact generateCodeWithOllamaModel instead. -/
def generateCodeWithMultipleOllamaModels (gen : String → Artifact) :
    List (String × Artifact) :=
  multipleOllamaProviders.map (fun m => (m, gen m))

/-! ## Queue worker (RequirementQueueServiceImpl.onModuleInit,
registerTaskProcessor) -/

/-- One delivered queue job: its id and the taskId of its payload. -/
structure QueueDelivery where
  id : String
  dataTaskId : String
deriving DecidableEq, Repr

/-- The backoff part of the default job options. -/
structure BackoffSettings where
  kind : String
  delay : Nat
deriving DecidableEq, Repr

/-- The default job options of the requirement-processing queue. -/
structure JobSettings where
  attempts : Nat
  backoff : BackoffSettings
  removeOnComplete : Bool
  removeOnFail : Bool
deriving DecidableEq, Repr

/-- The defaultJobOptions configured in onModuleInit. -/
def queueDefaultJobSettings : JobSettings :=
  { attempts := 3
    backoff := { kind := "exponential", delay := 5000 }
    removeOnComplete := false
    removeOnFail := false }

/-- The worker callback passed to the BullMQ Worker in onModuleInit: it logs
and returns job.data; no statement of its body can throw. -/
def workerCallback (j : QueueDelivery) : Except String String :=
  Except.ok j.dataTaskId

/-- The queue state a delivery ends in. -/
inductive JobFinalState where
  | completed
  | failed
deriving DecidableEq, Repr

/-- What one delivery of a job produces. -/
structure JobRunOutcome where
  state : JobFinalState
  retryScheduled : Bool
  processorErrorLogged : Bool
deriving DecidableEq, Repr

/-- One delivery of a queued job: the worker callback runs; on success the
queue marks the job completed and fires the completed handlers, among them
the registerTaskProcessor wrapper, which awaits the registered pipeline
processor inside try/catch and only logs its error; only a callback error
could mark the job failed and schedule the configured backoff retry. -/
def runQueueJob (processorFn : String → Except String Unit)
    (j : QueueDelivery) : JobRunOutcome :=
  match workerCallback j with
  | Except.ok d =>
    { state := JobFinalState.completed
      retryScheduled := false
      processorErrorLogged := !(exceptOk (processorFn d)) }
  | Except.error _ =>
    { state := JobFinalState.failed
      retryScheduled := true
      processorErrorLogged := false }

/-- A concrete oracle on which every git operation succeeds, for evaluating
the committer embedding on one run. -/
def sampleGitOracle : GitOracle :=
  { addConfigName := Except.ok ()
    addConfigEmail := Except.ok ()
    cloneRepo := Except.ok ()
    branchAll := Except.ok ["main"]
    checkoutExisting := Except.ok ()
    checkoutNewLocal := Except.ok ()
    writeFile := fun _ => Except.ok ()
    addFiles := Except.ok ()
    commitStep := Except.ok "abc123"
    pushStep := Except.ok ()
    removeTempDir := Except.ok () }

/-- A concrete commit request, for evaluating the committer embedding. -/
def sampleCommitRequest : CommitGitRequest :=
  { task :=
      { repository_url := "https://host/o/r.git"
        branch := "feat/auth"
        requirement_text := "User authentication" }
    generatedCode := [("auth.service.ts", "x"), ("auth.controller.ts", "y")]
    outputPath := "src"
    analysisTitle := some "Auth" }

/-! ## Theorems -/

/-- C1 counterexample: a quality result with codeQualityScore 90 but aggregate
45 is below the gate, yet the listener proceeds to emit the commit event; a
result with codeQualityScore 80 but aggregate 90 is at or above the gate, yet
the listener marks the task failed with the synthetic low-quality error. -/
theorem quality_gate_listener_counterexample :
    (generateListenerDecision
        { passed := false, codeQualityScore := 90, requirementCoverageScore := 0,
          syntaxValidityScore := 0, feedback := "" } =
            GenListenerAction.emitCommitEvent ∧
      overallScore 90 0 0 < 85) ∧
    (generateListenerDecision
        { passed := true, codeQualityScore := 80, requirementCoverageScore := 100,
          syntaxValidityScore := 100, feedback := "" } =
            GenListenerAction.markFailed "Low code quality score" ∧
      85 ≤ overallScore 80 100 100) := by
  refine ⟨⟨?_, ?_⟩, ?_, ?_⟩ <;> first
    | decide
    | norm_num [generateListenerDecision, overallScore]

/-- C1 (amended): the listener fails the task with the synthetic error
message, skipping the commit stage, exactly when the codeQualityScore
sub-score is at most 80, and emits the commit event exactly when that
sub-score exceeds 80; the failure update sets status failed with progress 0
and the message Low code quality score; the aggregate-score gate only
determines the persisted passed flag. -/
theorem quality_gate_listener_amended (q : QualityCheckResult) :
    (generateListenerDecision q = GenListenerAction.emitCommitEvent ↔
      80 < q.codeQualityScore) ∧
    (generateListenerDecision q =
        GenListenerAction.markFailed "Low code quality score" ↔
      q.codeQualityScore ≤ 80) ∧
    generateMarkTaskFailed "Low code quality score" =
      { status := RequirementStatus.failed, progress := 0,
        errorMsg := some "Low code quality score" } := by
  by_cases h : 80 < q.codeQualityScore
  · refine ⟨?_, ?_, rfl⟩ <;> simp [generateListenerDecision, h, not_le.mpr h]
  · refine ⟨?_, ?_, rfl⟩ <;> simp [generateListenerDecision, h, not_lt.mp h]

/-- C2 counterexample: a two-entry artifact with one valid TypeScript file and
one markdown file scores 50 in the code, because the denominator counts every
file entry, while the stated formula over code files only yields 100. -/
theorem syntax_score_denominator_counterexample :
    validateSyntax (fun _ => true) [("a.ts", "x"), ("README.md", "y")]
        "typescript" = 50 ∧
    syntaxScoreStated (fun _ => true) [("a.ts", "x"), ("README.md", "y")]
        "typescript" = 100 ∧
    validateSyntax (fun _ => true) [("a.ts", "x"), ("README.md", "y")]
        "typescript" ≠
      syntaxScoreStated (fun _ => true) [("a.ts", "x"), ("README.md", "y")]
        "typescript" := by
  have ha : isCodeFile "a.ts" "typescript" = true := by decide
  have hb : isCodeFile "README.md" "typescript" = false := by decide
  refine ⟨?_, ?_, ?_⟩ <;>
    norm_num [validateSyntax, syntaxScoreStated, List.filter, ha, hb]

/-- C2 (amended): the syntax-validity sub-score is the number of code files
the validator accepts, divided by the total number of artifact entries (code
and non-code alike), times 100, and 0 for the empty artifact; non-code files
never enter the numerator but always enter the denominator. -/
theorem syntax_score_amended (validator : String → Bool)
    (generatedCode : Artifact) (language : String) :
    (generatedCode = [] → validateSyntax validator generatedCode language = 0) ∧
    (generatedCode ≠ [] →
      validateSyntax validator generatedCode language =
        (((generatedCode.filter (fun e => isCodeFile e.1 language)).filter
            (fun e => validator e.2)).length : ℚ) /
          (generatedCode.length : ℚ) * 100) := by
  constructor
  · intro h
    subst h
    rfl
  · intro h
    have hlen : 0 < generatedCode.length := List.length_pos.mpr h
    have hff :
        (generatedCode.filter (fun e => isCodeFile e.1 language)).filter
            (fun e => validator e.2) =
          generatedCode.filter (fun e => isCodeFile e.1 language && validator e.2) := by
      rw [List.filter_filter]
      apply List.filter_congr
      intro e _
      exact Bool.and_comm _ _
    rw [validateSyntax, hff, if_pos hlen]

/-- C2 witness: the amended statement evaluated at the two-entry artifact of
the counterexample gives one accepted code file over two entries. -/
theorem syntax_score_amended_witness :
    ([("a.ts", "x"), ("README.md", "y")] : Artifact) ≠ [] ∧
    validateSyntax (fun _ => true) [("a.ts", "x"), ("README.md", "y")]
      "typescript" = 50 := by
  have h : ([("a.ts", "x"), ("README.md", "y")] : Artifact) ≠ [] := by decide
  refine ⟨h, ?_⟩
  rw [(syntax_score_amended (fun _ => true)
    [("a.ts", "x"), ("README.md", "y")] "typescript").2 h]
  have ha : isCodeFile "a.ts" "typescript" = true := by decide
  have hb : isCodeFile "README.md" "typescript" = false := by decide
  norm_num [List.filter, ha, hb]

/-- C3: at a file structure fully matched by the generated artifact and a
functional coverage of 100 the code computes 70.3, because it mixes the
file-structure fraction on the unit scale into the 30 to 70 weighted sum of
percentages, while the stated formula yields 100; the error fallback of the
same method scales the same fraction by 100, exposing the unit slip. -/
theorem requirement_coverage_units_eval :
    calculateRequirementCoverage ["src/auth.service.ts"] ["src/auth.service.ts"]
        (LlmOutcome.ok 100) = 703 / 10 ∧
    requirementCoverageStated ["src/auth.service.ts"] ["src/auth.service.ts"]
        100 = 100 ∧
    calculateRequirementCoverage ["src/auth.service.ts"] ["src/auth.service.ts"]
        (LlmOutcome.caught "timeout") = 100 := by
  refine ⟨?_, ?_, ?_⟩ <;>
    norm_num [calculateRequirementCoverage, requirementCoverageStated,
      fileStructureCoverage, List.filter, List.any, basenameOf]

/-- C4: the passed flag of checkCodeQuality is true exactly when the weighted
aggregate of its three sub-scores reaches 85, and a run whose aggregate is
exactly 85 passes. -/
theorem overall_score_gate (validator : String → Bool)
    (evalCall : LlmOutcome EvalPayload) (coverageCall : LlmOutcome ℚ)
    (generatedCode : Artifact) (fileStructure : List String)
    (language : String) :
    ((checkCodeQuality validator evalCall coverageCall generatedCode
          fileStructure language).passed = true ↔
      85 ≤ 0.5 * (checkCodeQuality validator evalCall coverageCall generatedCode
            fileStructure language).codeQualityScore +
          0.3 * (checkCodeQuality validator evalCall coverageCall generatedCode
            fileStructure language).requirementCoverageScore +
          0.2 * (checkCodeQuality validator evalCall coverageCall generatedCode
            fileStructure language).syntaxValidityScore) ∧
    (checkCodeQuality (fun _ => true) (LlmOutcome.ok ⟨70, "fb"⟩)
        (LlmOutcome.caught "e") [("a.ts", "x")] [] "typescript").passed = true ∧
    overallScore 70 100 100 = 85 := by
  refine ⟨?_, ?_, ?_⟩
  · simp only [checkCodeQuality, overallScore, decide_eq_true_eq]
    constructor <;> intro h <;> linarith
  · have ha : isCodeFile "a.ts" "typescript" = true := by decide
    norm_num [checkCodeQuality, evaluateCodeQuality, calculateRequirementCoverage,
      fileStructureCoverage, validateSyntax, List.filter, ha, overallScore]
  · norm_num [overallScore]

/-- Skipping excluded api types inside the fallback loop is the same as
filtering them out of the candidate list up front. -/
theorem fallbackLoop_eq_filtered (api : SingleLLMConfig → Except String String)
    (excludeProviders : List String) :
    ∀ (l : List SingleLLMConfig) (lastError : Option String),
      fallbackLoop api excludeProviders l lastError =
        statedFallbackRun api
          (l.filter (fun c => !(excludeProviders.contains c.apiType))) lastError := by
  intro l
  induction l with
  | nil => intro lastError; rfl
  | cons c rest ih =>
    intro lastError
    by_cases h : c.apiType ∈ excludeProviders
    · simp [fallbackLoop, h, List.filter, ih]
    · cases hc : api c <;>
        simp [fallbackLoop, statedFallbackRun, List.filter, h, hc, ih]

/-- exceptOk evaluated on an error. -/
theorem exceptOk_error {ε α : Type} (e : ε) :
    exceptOk (Except.error e : Except ε α) = false := rfl

/-- exceptOk evaluated on a success. -/
theorem exceptOk_ok {ε α : Type} (a : α) :
    exceptOk (Except.ok a : Except ε α) = true := rfl

/-- The stated fallback run succeeds exactly when some candidate succeeds. -/
theorem statedFallbackRun_ok_iff_any (api : SingleLLMConfig → Except String String) :
    ∀ (l : List SingleLLMConfig) (lastError : Option String),
      exceptOk (statedFallbackRun api l lastError) =
        l.any (fun c => exceptOk (api c)) := by
  intro l
  induction l with
  | nil => intro lastError; rfl
  | cons c rest ih =>
    intro lastError
    cases hc : api c <;>
      simp [statedFallbackRun, hc, exceptOk_ok, exceptOk_error, ih]

/-- C5: the fallback call equals the stated behaviour: candidates are the
enabled providers in fallback order followed by the remaining enabled
providers not listed there, minus the excluded api types; the first
successful candidate is returned together with its provider, and an error is
raised only once every candidate has failed, reporting the last error. -/
theorem callWithFallback_follows_stated_order
    (api : SingleLLMConfig → Except String String) (cfg : LlmConfig)
    (excludeProviders : List String) :
    callLLMApiWithFallback api cfg excludeProviders =
      statedFallbackRun api (statedFallbackCandidates cfg excludeProviders) none ∧
    exceptOk (callLLMApiWithFallback api cfg excludeProviders) =
      (statedFallbackCandidates cfg excludeProviders).any
        (fun c => exceptOk (api c)) := by
  have hcand : statedFallbackCandidates cfg excludeProviders =
      (getProvidersInFallbackOrder cfg).filter
        (fun c => !(excludeProviders.contains c.apiType)) := rfl
  constructor
  · rw [callLLMApiWithFallback, fallbackLoop_eq_filtered, hcand]
  · rw [callLLMApiWithFallback, fallbackLoop_eq_filtered,
      statedFallbackRun_ok_iff_any, hcand]

/-- C6 counterexample: the final update of the direct processing path sets
status completed with progress 1 while copying an empty commit hash into the
details, so not every code path that sets completed guarantees a truthy
hash. -/
theorem completed_commitHash_counterexample :
    (processRequirementFinalUpdate { commitHash := "", filesChanged := [] }).status =
      RequirementStatus.completed ∧
    (processRequirementFinalUpdate { commitHash := "", filesChanged := [] }).commitHash =
      some "" ∧
    (processRequirementFinalUpdate { commitHash := "", filesChanged := [] }).progress = 1 :=
  ⟨rfl, rfl, rfl⟩

/-- C6 (amended): every transition to completed sets progress 1.0 and stores
the committer hash; on the event-driven commit path the listener guard
additionally guarantees the stored hash is non-empty, while the direct
processing paths copy the hash unchecked. -/
theorem completed_commitHash_amended :
    (∀ r : ResponseCommitGit,
      (commitListenerUpdate r).status = RequirementStatus.completed →
        (commitListenerUpdate r).commitHash = some r.commitHash ∧
          r.commitHash ≠ "" ∧ (commitListenerUpdate r).progress = 1) ∧
    (∀ r : ResponseCommitGit,
      (processRequirementFinalUpdate r).status = RequirementStatus.completed ∧
        (processRequirementFinalUpdate r).progress = 1 ∧
        (processRequirementFinalUpdate r).commitHash = some r.commitHash) := by
  constructor
  · intro r h
    by_cases hh : r.commitHash = ""
    · rw [commitListenerUpdate, if_pos (by simp [hh])] at h
      exact absurd h (by simp [commitMarkTaskFailed])
    · rw [commitListenerUpdate, if_neg (by simp [hh])]
      exact ⟨rfl, hh, rfl⟩
  · intro r
    exact ⟨rfl, rfl, rfl⟩

/-- C6 witness: the event-path guarantee evaluated at a non-empty hash. -/
theorem completed_commitHash_amended_witness :
    (commitListenerUpdate { commitHash := "h", filesChanged := [] }).commitHash =
      some "h" ∧
    "h" ≠ "" ∧
    (commitListenerUpdate { commitHash := "h", filesChanged := [] }).progress = 1 :=
  completed_commitHash_amended.1 { commitHash := "h", filesChanged := [] } rfl

/-- A successful run of the committer try block means its commit step
succeeded with the returned hash and its push step succeeded. -/
theorem commitBody_ok_shape (g : GitOracle) (req : CommitGitRequest)
    (r : ResponseCommitGit) (h : commitBody g req = Except.ok r) :
    g.commitStep = Except.ok r.commitHash ∧ g.pushStep = Except.ok () := by
  unfold commitBody at h
  repeat' split at h
  all_goals try (cases h)
  all_goals simp_all

/-- C7: every call to commitToGit either returns a result whose hash is the
one the commit step produced, with the push step having succeeded, or raises
an error; removal of the temporary directory is attempted exactly on the exit
paths on which it was created, and the outcome of the removal never changes
the returned or raised result. -/
theorem commitToGit_exit_paths (g : GitOracle) (req : CommitGitRequest) :
    (∀ r, (commitToGit g req).result = Except.ok r →
      g.commitStep = Except.ok r.commitHash ∧ g.pushStep = Except.ok ()) ∧
    ((commitToGit g req).removalAttempted = (commitToGit g req).tempDirCreated) ∧
    (∀ e : String,
      (commitToGit { g with removeTempDir := Except.error e } req).result =
        (commitToGit { g with removeTempDir := Except.ok () } req).result ∧
      (commitToGit { g with removeTempDir := Except.error e } req).removalAttempted =
        (commitToGit g req).removalAttempted ∧
      ((commitToGit g req).tempDirCreated = true →
        (commitToGit { g with removeTempDir := Except.ok () } req).removalSucceeded =
          true)) := by
  have hbody : ∀ x, commitBody { g with removeTempDir := x } req = commitBody g req := by
    intro x
    cases g
    rfl
  by_cases hn : extractRepoName req.task.repository_url = ""
  · refine ⟨?_, ?_, ?_⟩
    · intro r h
      rw [commitToGit, if_pos (by simp [hn])] at h
      exact absurd h (by simp)
    · rw [commitToGit, if_pos (by simp [hn])]
    · intro e
      refine ⟨?_, ?_, ?_⟩ <;>
        simp [commitToGit, if_pos, hn]
  · refine ⟨?_, ?_, ?_⟩
    · intro r h
      rw [commitToGit, if_neg (by simp [hn])] at h
      simp only at h
      cases hb : commitBody g req with
      | ok rr =>
        rw [hb] at h
        simp only [Except.ok.injEq] at h
        subst h
        exact commitBody_ok_shape g req rr hb
      | error e =>
        rw [hb] at h
        simp at h
    · rw [commitToGit, if_neg (by simp [hn])]
    · intro e
      refine ⟨?_, ?_, ?_⟩ <;>
        simp [commitToGit, if_neg, hn, hbody, exceptOk]

/-- C7 witness: the shape guarantee applied to a fully successful run. -/
theorem commitToGit_exit_paths_witness :
    sampleGitOracle.commitStep = Except.ok "abc123" ∧
    sampleGitOracle.pushStep = Except.ok () :=
  (commitToGit_exit_paths sampleGitOracle sampleCommitRequest).1
    { commitHash := "abc123"
      filesChanged := ["src/auth.service.ts", "src/auth.controller.ts"] } rfl

/-- C8 counterexample: when the row insert and the enqueue both succeed but
the surrounding database transaction fails to commit, the job is left in the
queue while no task row persists, so creation and enqueueing are not
atomic as a pair. -/
theorem createTask_atomicity_counterexample :
    createRequirementTask { tasks := [], jobs := [] } "t1" "critical"
        { insertOk := true, enqueueOk := true, commitOk := false } =
      (Except.error "transaction commit failed",
        { tasks := [],
          jobs := [{ id := "t1", taskId := "t1", priority := 1 }] }) := rfl

/-- C8 (amended): the transaction protects the row, not the pair: when the
enqueue fails the callback aborts, the row is rolled back and the queue is
unchanged; when every step succeeds the row and the job both persist, with
the job id equal to the task id; but a successful enqueue is a Redis write
that a later transaction failure cannot undo. -/
theorem createTask_amended (st : PipelineState) (newId priorityName : String)
    (env : CreateTaskEnv) :
    (env.insertOk = true → env.enqueueOk = false →
      createRequirementTask st newId priorityName env =
        (Except.error "enqueue failed", st)) ∧
    (env.insertOk = true → env.enqueueOk = true → env.commitOk = true →
      createRequirementTask st newId priorityName env =
        (Except.ok newId,
          { tasks := st.tasks ++
              [{ id := newId, status := RequirementStatus.pending, progress := 0 }],
            jobs := st.jobs ++
              [{ id := newId, taskId := newId,
                 priority := getPriorityValue priorityName }] })) := by
  constructor
  · intro h1 h2
    simp [createRequirementTask, queueAddTask, h1, h2]
  · intro h1 h2 h3
    simp [createRequirementTask, queueAddTask, h1, h2, h3]

/-- C8 witness: a fully successful creation at priority high persists the row
and the job with matching identifiers. -/
theorem createTask_amended_witness :
    createRequirementTask { tasks := [], jobs := [] } "t1" "high"
        { insertOk := true, enqueueOk := true, commitOk := true } =
      (Except.ok "t1",
        { tasks := [{ id := "t1", status := RequirementStatus.pending, progress := 0 }],
          jobs := [{ id := "t1", taskId := "t1", priority := 2 }] }) := by
  have h := (createTask_amended { tasks := [], jobs := [] } "t1" "high"
    { insertOk := true, enqueueOk := true, commitOk := true }).2 rfl rfl rfl
  simpa [getPriorityValue] using h

/-- C9: evaluated on the single artifact the comparison path actually
receives, the selection loop picks the file path with the longest content as
the best model and that content string as the best code, since the keys of a
string are its character indices; the declared multi-model generator, by
contrast, yields one artifact per configured provider. -/
theorem model_comparison_misuse_eval :
    comparisonSelect [("src/a.ts", "abc"), ("src/b.ts", "x")] =
      { bestModel := "src/a.ts", maxFileCount := 3, bestModelCode := "abc" } ∧
    (generateCodeWithMultipleOllamaModels
        (fun m => [(m ++ "/file.ts", "content")])).map Prod.fst =
      multipleOllamaProviders ∧
    jsStringKeyCount "abc" = 3 := by
  refine ⟨?_, rfl, rfl⟩
  decide

/-- C10: every delivered job ends in queue state completed with no retry
scheduled, whatever the registered pipeline processor does; a processor
failure is only logged; and the configured retry policy those failures never
reach is 3 attempts with exponential backoff starting at 5000 milliseconds. -/
theorem queue_job_always_completes
    (processorFn : String → Except String Unit) (j : QueueDelivery) :
    runQueueJob processorFn j =
      { state := JobFinalState.completed
        retryScheduled := false
        processorErrorLogged := !(exceptOk (processorFn j.dataTaskId)) } ∧
    queueDefaultJobSettings.attempts = 3 ∧
    queueDefaultJobSettings.backoff.kind = "exponential" ∧
    queueDefaultJobSettings.backoff.delay = 5000 :=
  ⟨rfl, rfl, rfl, rfl⟩

end CodeGenAgent
